import Mathlib

/-!
Verification of the epicstar GitHub-star-to-mirror sync service.

Shallow embedding of the relevant program parts:
* `app/services/sync_orchestrator.py` — `SyncOrchestrator.process_star_event`
  and `_generate_onedev_name`;
* `app/db/crud.py` — `RepositoryCRUD`, `SyncLogCRUD`, `WebhookEventCRUD`
  over an explicit in-memory database state;
* `app/core/security.py` — `verify_github_signature` (HMAC-SHA256 is kept
  abstract, as it is an external library primitive);
* `app/core/retry.py` — the tenacity-based retry policy;
* `app/services/git_operations.py` — clone/push/cleanup over an explicit
  set of existing temporary directories;
* `app/integrations/onedev_client.py` — `create_repository` /
  `get_repository` over an explicit HTTP response outcome.

Python strings are represented as `String` (or `List Char` where
character-level reasoning is needed), byte strings as `List Nat`,
`datetime.utcnow()` as an abstract `Nat` clock supplied by the
environment, and exceptions as an explicit `Exc` sum type returned
through `Except`.
-/

/-! ### Target repository name generation (`SyncOrchestrator._generate_onedev_name`)

Python `str.replace` with a single-character pattern and single-character
replacement is a character-wise map, and `str.lower` maps `Char.toLower`
over the characters; both are modelled on `List Char`. -/

/-- Python `s.replace(a, b)` for one-character `a`, `b`. -/
def pyReplace (s : List Char) (a b : Char) : List Char :=
  s.map fun c => if c = a then b else c

/-- Python `s.lower()` (ASCII-relevant part). -/
def pyLower (s : List Char) : List Char :=
  s.map Char.toLower

/-- `SyncOrchestrator._generate_onedev_name` on character lists:
`f"{owner}-{repo}"` sanitized by replacing `.` and `_` with `-` and
lower-casing, with the configured prefix prepended. -/
def generateOnedevNameL (pre owner repo : List Char) : List Char :=
  pre ++ pyLower (pyReplace (pyReplace (owner ++ ['-'] ++ repo) '.' '-') '_' '-')

/-- `SyncOrchestrator._generate_onedev_name` on `String`. -/
def sGenerateOnedevName (pre owner repo : String) : String :=
  ⟨generateOnedevNameL pre.data owner.data repo.data⟩

/-- Per-character sanitizer as the spec phrases it: dots and underscores
become hyphens, everything else is lower-cased. -/
def sanitizeChar (c : Char) : Char :=
  if c = '.' ∨ c = '_' then '-' else c.toLower

/-! ### Webhook signature verification (`app/core/security.py`)

`hmacHex secret payload` stands for the hex digest
`hmac.new(secret, payload, hashlib.sha256).hexdigest()`; it is an abstract
parameter because HMAC-SHA256 is an external library primitive. Headers and
digests are `List Char`, payloads are byte lists. -/

/-- `s.startswith(pat)` on character lists. -/
def startsWithL : List Char → List Char → Bool
  | [], _ => true
  | _ :: _, [] => false
  | p :: ps, c :: cs => p == c && startsWithL ps cs

/-- `s.split("=", 1)[1]`: everything after the first `'='`.
(Only used after a successful `startswith("sha256=")` check, which
guarantees an `'='` is present.) -/
def afterFirstEq : List Char → List Char
  | [] => []
  | c :: cs => if c = '=' then cs else afterFirstEq cs

/-- `verify_github_signature(payload, signature_header)`:
returns `false` on a missing header, `false` on a header not starting with
`sha256=`, otherwise compares the rest of the header against the hex HMAC
digest (`hmac.compare_digest`, modelled as equality — constant-time is a
timing property with no functional content). -/
def verifyGithubSignature (hmacHex : List Char → List Nat → List Char)
    (secret : List Char) (payload : List Nat)
    (signatureHeader : Option (List Char)) : Bool :=
  match signatureHeader with
  | none => false
  | some h =>
    if startsWithL "sha256=".data h then
      afterFirstEq h == hmacHex secret payload
    else
      false

/-! ### Exceptions (`app/utils/exceptions.py` and sqlalchemy `IntegrityError`) -/

/-- The exception kinds that can cross the boundaries modelled here.
`integrityError` stands for sqlalchemy's `IntegrityError` raised on a
violated UNIQUE constraint; `otherError` covers any other unexpected
exception. -/
inductive Exc where
  | gitHubAPIError (msg : String)
  | oneDevAPIError (msg : String)
  | gitOperationError (msg : String)
  | retryableError (msg : String)
  | integrityError (msg : String)
  | otherError (msg : String)
deriving Repr, DecidableEq

/-- Python `str(e)`: the exception's message. -/
def Exc.message : Exc → String
  | .gitHubAPIError m => m
  | .oneDevAPIError m => m
  | .gitOperationError m => m
  | .retryableError m => m
  | .integrityError m => m
  | .otherError m => m

/-! ### Retry policy (`app/core/retry.py`)

`get_retry_config` with `retry_exceptions=None` retries exactly on
`(RetryableError, GitOperationError, OneDevAPIError)`; `tenacity`'s
`retry_if_exception_type` is an `isinstance` test, modelled by
`isRetryableDefault`. -/

/-- The default retryable-exception predicate of `get_retry_config`. -/
def isRetryableDefault : Exc → Bool
  | .retryableError _ => true
  | .gitOperationError _ => true
  | .oneDevAPIError _ => true
  | _ => false

/-- tenacity `wait_exponential(multiplier, min, max)` evaluated after the
`attempt`-th attempt (1-based): `multiplier * 2 ^ (attempt - 1)` clamped
into `[min, max]`. -/
def waitExponential (multiplier minW maxW : Nat) (attempt : Nat) : Nat :=
  max minW (min (multiplier * 2 ^ (attempt - 1)) maxW)

/-- Result of running a unit of work under the retry policy: how many times
the work was invoked, the backoff delays slept between invocations, and the
final outcome. -/
structure RetryResult (α : Type) where
  attempts : Nat
  delays : List Nat
  result : Except Exc α
deriving Repr

/-- The `AsyncRetrying` loop of `with_retry` / `retry_with_backoff`
(`stop_after_attempt`, `retry_if_exception_type`, `reraise=True`):
invoke the work; on success stop; on a retryable exception with attempts
remaining, sleep the exponential-backoff delay and re-invoke; otherwise
re-raise immediately. `attempt` is the 1-based attempt number, `remaining`
the number of attempts still allowed. -/
def runRetry (isR : Exc → Bool) (wait : Nat → Nat)
    (work : Nat → Except Exc α) : Nat → Nat → RetryResult α
  | _, 0 => ⟨0, [], .error (.otherError "RetryError")⟩
  | attempt, remaining + 1 =>
    match work attempt with
    | .ok a => ⟨1, [], .ok a⟩
    | .error e =>
      if isR e && remaining != 0 then
        let sub := runRetry isR wait work (attempt + 1) remaining
        ⟨sub.attempts + 1, wait attempt :: sub.delays, sub.result⟩
      else
        ⟨1, [], .error e⟩

/-- The retry policy as configured at the single decoration site
`@with_retry(max_attempts=3, min_wait=4, max_wait=60)` wrapping
`SyncOrchestrator.process_star_event` (multiplier defaults to 2,
`retry_exceptions` defaults to the `get_retry_config` default). -/
def starEventRetryPolicy (work : Nat → Except Exc α) : RetryResult α :=
  runRetry isRetryableDefault (waitExponential 2 4 60) work 1 3

/-! ### Git operations (`app/services/git_operations.py`)

The filesystem is modelled as the list of currently existing temporary
clone directories. `tempfile.mkdtemp` yields the fresh name `newDir`;
the outcomes of `Repo.clone_from` and of the pushes are oracles; `rmtreeOk`
says whether `shutil.rmtree` succeeds (its failure is caught and only
logged by `cleanup_directory`). -/

/-- Outcome of an external git command (`Repo.clone_from` or `push`). -/
inductive GitOutcome where
  | ok
  | gitCommandError (msg : String)
  | unexpected (msg : String)
deriving Repr, DecidableEq

/-- The set of existing temporary directories. -/
abbrev Fs := List String

/-- `GitOperations.cleanup_directory`: `if os.path.exists(path):
shutil.rmtree(path)`, any exception caught and logged. -/
def cleanupDirectory (fs : Fs) (path : String) (rmtreeOk : Bool) : Fs :=
  if List.contains fs path then
    if rmtreeOk then List.erase fs path else fs
  else
    fs

/-- `GitOperations.clone_repository`: create a fresh temp directory, clone
into it; on `GitCommandError` or any other exception, clean the directory
up and raise `GitOperationError`. Returns the path on success. -/
def cloneRepository (fs : Fs) (newDir : String) (cloneRes : GitOutcome)
    (rmtreeOk : Bool) : Fs × Except Exc String :=
  let fs1 : Fs := newDir :: fs
  match cloneRes with
  | .ok => (fs1, .ok newDir)
  | .gitCommandError m =>
    (cleanupDirectory fs1 newDir rmtreeOk, .error (.gitOperationError ("Clone failed: " ++ m)))
  | .unexpected m =>
    (cleanupDirectory fs1 newDir rmtreeOk, .error (.gitOperationError ("Unexpected clone error: " ++ m)))

/-- `GitOperations.push_repository`: set up the remote and push; on
`GitCommandError` or any other exception raise `GitOperationError`.
Touches no temporary directory. -/
def pushRepository (pushRes : GitOutcome) : Except Exc Unit :=
  match pushRes with
  | .ok => .ok ()
  | .gitCommandError m => .error (.gitOperationError ("Push failed: " ++ m))
  | .unexpected m => .error (.gitOperationError ("Unexpected push error: " ++ m))

/-- `GitOperations.sync_repository`: clone then push, with the `finally:`
block cleaning up the clone directory whenever `repo_path` was assigned
(a clone failure leaves `repo_path = None`; `clone_repository` has already
cleaned up its own directory in that case). `rmtreeClone` / `rmtreeFinal`
are the success oracles of the two possible `shutil.rmtree` calls. -/
def syncRepository (fs : Fs) (newDir : String) (cloneRes pushRes : GitOutcome)
    (rmtreeClone rmtreeFinal : Bool) : Fs × Except Exc Unit :=
  match cloneRepository fs newDir cloneRes rmtreeClone with
  | (fs1, .error e) => (fs1, .error e)
  | (fs1, .ok path) =>
    match pushRepository pushRes with
    | .error e => (cleanupDirectory fs1 path rmtreeFinal, .error e)
    | .ok _ => (cleanupDirectory fs1 path rmtreeFinal, .ok ())

/-! ### OneDev client (`app/integrations/onedev_client.py`)

An HTTP interaction either returns a response (status code, parsed JSON
body, raw text) or fails in transport (`httpx.HTTPError`) or in some other
unexpected way. The JSON body is read with `data.get("id")` /
`data.get("name")`, so both fields are optional. Note that an
`OneDevAPIError` raised *inside* the `try:` block of `create_repository` /
`get_repository` is itself caught by the trailing `except Exception` and
re-wrapped with an `"Unexpected error: "` message. -/

/-- Parsed JSON body of a OneDev project response, as accessed via
`data.get(...)`. -/
structure OneDevJson where
  id : Option Int
  name : Option String
deriving Repr, DecidableEq

/-- Outcome of one `httpx` request. -/
inductive HttpResult where
  | resp (status : Nat) (data : OneDevJson) (text : String)
  | httpError (msg : String)
  | unexpectedError (msg : String)
deriving Repr, DecidableEq

/-- The dict returned by `create_repository` / `get_repository`:
`{"id": data.get("id"), "name": data.get("name"), "url": f"{base}/{name}",
"git_url": f"{base}/{name}.git"}`. -/
structure OneDevRepoInfo where
  id : Option Int
  name : Option String
  url : String
  git_url : String
deriving Repr, DecidableEq

/-- `OneDevClient.get_repository(name)` given the outcome `r` of the GET
request. A non-200 status raises `OneDevAPIError("Repository not found")`
inside the `try:`, which the `except Exception` clause re-wraps. -/
def getRepository (base name : String) (r : HttpResult) : Except Exc OneDevRepoInfo :=
  match r with
  | .resp status data _ =>
    if status == 200 then
      .ok ⟨data.id, data.name, base ++ "/" ++ name, base ++ "/" ++ name ++ ".git"⟩
    else
      .error (.oneDevAPIError ("Unexpected error: " ++ ("Repository not found: " ++ name)))
  | .httpError m => .error (.oneDevAPIError ("HTTP error: " ++ m))
  | .unexpectedError m => .error (.oneDevAPIError ("Unexpected error: " ++ m))

/-- `OneDevClient.create_repository(name, ...)` given the configured
conflict strategy, the outcome `postR` of the POST and (for the
`use_existing` fallback) the outcome `getR` of the nested GET:

* 201 → the created repository's info;
* 409 with strategy `use_existing` → `get_repository(name)` (whose
  exception, if any, is re-wrapped by the outer `except Exception`);
* 409 otherwise → `raise OneDevAPIError(f"Repository {name} already
  exists")`, re-wrapped by the `except Exception` clause;
* any other status → `raise OneDevAPIError(error_msg)`, re-wrapped;
* transport failure → `OneDevAPIError(f"HTTP error: {e}")`. -/
def createRepository (strategy base name : String)
    (postR getR : HttpResult) : Except Exc OneDevRepoInfo :=
  match postR with
  | .resp status data text =>
    if status == 201 then
      .ok ⟨data.id, data.name, base ++ "/" ++ name, base ++ "/" ++ name ++ ".git"⟩
    else if status == 409 then
      if strategy == "use_existing" then
        match getRepository base name getR with
        | .ok info => .ok info
        | .error e => .error (.oneDevAPIError ("Unexpected error: " ++ e.message))
      else
        .error (.oneDevAPIError ("Unexpected error: " ++ ("Repository " ++ name ++ " already exists")))
    else
      .error (.oneDevAPIError ("Unexpected error: " ++
        ("Failed to create repository: " ++ toString status ++ " - " ++ text)))
  | .httpError m => .error (.oneDevAPIError ("HTTP error: " ++ m))
  | .unexpectedError m => .error (.oneDevAPIError ("Unexpected error: " ++ m))

/-! ### Data model (`app/db/models.py`) and webhook payload (`app/models/webhook.py`) -/

/-- `RepositoryOwner` pydantic model. -/
structure OwnerInfo where
  login : String
  type : String
deriving Repr, DecidableEq

/-- `Repository` pydantic model (webhook payload repository descriptor). -/
structure RepoInfo where
  id : Int
  name : String
  full_name : String
  owner : OwnerInfo
  html_url : String
  clone_url : String
  default_branch : String
  is_private : Bool
  size : Int
deriving Repr, DecidableEq

/-- `Sender` pydantic model. -/
structure SenderInfo where
  login : String
deriving Repr, DecidableEq

/-- `WatchEvent` pydantic model (the validated star event). -/
structure WatchEvent where
  action : String
  repository : RepoInfo
  sender : SenderInfo
deriving Repr, DecidableEq

/-- A row of the `repositories` table (`Repository` ORM model).
`github_url` carries a UNIQUE constraint enforced by `repoCreate`. -/
structure RepoRecord where
  id : Nat
  github_url : String
  github_repo_name : String
  github_owner : String
  github_full_name : String
  github_repo_id : Option Int
  github_default_branch : Option String
  github_is_private : Bool
  github_size_kb : Option Int
  onedev_url : Option String
  onedev_repo_name : Option String
  onedev_project_id : Option Int
  sync_status : String
  error_message : Option String
  retry_count : Nat
  max_retries : Nat
  created_at : Nat
  updated_at : Nat
  last_synced_at : Option Nat
  next_retry_at : Option Nat
deriving Repr, DecidableEq

/-- A row of the `sync_logs` table (`SyncLog` ORM model). -/
structure SyncLogRecord where
  repository_id : Nat
  event_type : String
  status : String
  error_message : Option String
  duration_seconds : Option Nat
  bytes_transferred : Option Nat
  created_at : Nat
deriving Repr, DecidableEq

/-- A row of the `webhook_events` table (`WebhookEvent` ORM model).
`event_id` carries a UNIQUE constraint enforced by `webhookEventCreate`. -/
structure WebhookEventRecord where
  event_id : String
  event_type : String
  delivery_id : Option String
  payload : WatchEvent
  signature : String
  processed : Bool
  processing_error : Option String
  received_at : Nat
  processed_at : Option Nat
  repository_id : Option Nat
deriving Repr, DecidableEq

/-- The durable store: the three tables plus the autoincrement counter for
`repositories.id`. -/
structure Db where
  repos : List RepoRecord
  sync_logs : List SyncLogRecord
  webhook_events : List WebhookEventRecord
  next_repo_id : Nat
deriving Repr, DecidableEq

/-! ### CRUD operations (`app/db/crud.py`) -/

/-- `RepositoryCRUD.get_by_github_url`. -/
def getByGithubUrl (db : Db) (url : String) : Option RepoRecord :=
  db.repos.find? fun r => r.github_url == url

/-- The optional keyword arguments the orchestrator passes to
`RepositoryCRUD.update_status` beyond `status` and `error_message`.
The outer `Option` is kwarg presence; the inner value is what `setattr`
assigns (which may itself be `None` in Python). -/
structure UpdateKw where
  onedev_url : Option (Option String) := none
  onedev_repo_name : Option (Option String) := none
  onedev_project_id : Option (Option Int) := none
  last_synced_at : Option (Option Nat) := none
deriving Repr, DecidableEq

/-- The row mutation performed by `RepositoryCRUD.update_status` on the
matching row: set `sync_status`, `error_message` (its default `None` when
the caller does not pass it), bump `updated_at`, then `setattr` each
present kwarg. -/
def applyUpdate (now : Nat) (status : String) (errMsg : Option String)
    (kw : UpdateKw) (r : RepoRecord) : RepoRecord :=
  let r := { r with sync_status := status, error_message := errMsg, updated_at := now }
  let r := match kw.onedev_url with | some v => { r with onedev_url := v } | none => r
  let r := match kw.onedev_repo_name with | some v => { r with onedev_repo_name := v } | none => r
  let r := match kw.onedev_project_id with | some v => { r with onedev_project_id := v } | none => r
  match kw.last_synced_at with | some v => { r with last_synced_at := v } | none => r

/-- `RepositoryCRUD.update_status`: look the row up by id and mutate it
(no-op when the id is absent, as in the source). -/
def updateStatus (db : Db) (now : Nat) (repoId : Nat) (status : String)
    (errMsg : Option String) (kw : UpdateKw) : Db :=
  { db with repos := db.repos.map fun r =>
      if r.id == repoId then applyUpdate now status errMsg kw r else r }

/-- `WebhookEventCRUD.mark_processed`: look the event up by `event_id` and
set `processed`, `processed_at`, `repository_id`, `processing_error`. -/
def markProcessed (db : Db) (now : Nat) (eventId : String)
    (repoId : Option Nat) (err : Option String) : Db :=
  { db with webhook_events := db.webhook_events.map fun w =>
      if w.event_id == eventId then
        { w with processed := true, processed_at := some now,
                 repository_id := repoId, processing_error := err }
      else w }

/-! ### The sync orchestrator (`SyncOrchestrator.process_star_event`)

The run is a function of the event, the delivery id, the initial database,
and oracles for everything external: the wall clock, the OneDev HTTP
responses, the git transfer outcome, and an optional competing writer.
`race` models the §5 two-writers hazard: a `RepositorySync` row committed
by a concurrent task after this task's idempotency lookup and before its
`create` flush — `none` reproduces the purely sequential executions.
Database commits are modelled as always succeeding (storage failures are
out of scope, as in the spec's §4.2 transactional contract); the run
records the database snapshot after every `session.commit()`. -/

/-- Process-wide configuration and wall-clock values read during one run. -/
structure SyncEnv where
  now : Nat
  elapsed : Nat
  onedev_strategy : String
  onedev_base : String
  name_pre : String
deriving Repr, DecidableEq

/-- External side-effecting calls issued during a run. -/
inductive ExtCall where
  | provision (name description : String)
  | transfer (source_url target_url : String) (branch : Option String)
deriving Repr, DecidableEq

/-- The dict returned by `process_star_event` (its status-relevant keys). -/
inductive Outcome where
  | alreadySynced (repository_id : Nat) (onedev_url : Option String)
  | success (repository_id : Nat) (onedev_url : String) (duration_seconds : Nat)
deriving Repr, DecidableEq

/-- Equality of modelled Python results (`Except`) is decidable whenever it
is on both components. -/
instance {ε α : Type} [DecidableEq ε] [DecidableEq α] : DecidableEq (Except ε α) := fun a b =>
  match a, b with
  | .ok x, .ok y =>
    if h : x = y then .isTrue (by rw [h]) else .isFalse (by simp [h])
  | .error x, .error y =>
    if h : x = y then .isTrue (by rw [h]) else .isFalse (by simp [h])
  | .ok _, .error _ => .isFalse (by simp)
  | .error _, .ok _ => .isFalse (by simp)

/-- Everything observable about one `process_star_event` run: the final
database, the returned dict or raised exception, the external calls made,
the `(repository id, status)` writes performed on the `repositories`
table (row creation writes the row's initial `"pending"`), and the
database snapshot after each `session.commit()`. -/
structure RunResult where
  db : Db
  result : Except Exc Outcome
  calls : List ExtCall
  status_writes : List (Nat × String)
  commits : List Db
deriving Repr, DecidableEq

/-- The `except (GitHubAPIError, OneDevAPIError, GitOperationError)`
handler of `process_star_event`, reached with `repo_id` set: transition
the row to `failed` with the error message, append a failed `SyncLog`
entry, commit, mark the webhook event processed with the error, commit,
then re-raise. -/
def failPath (env : SyncEnv) (deliveryId : String) (rid : Nat) (dbX : Db)
    (e : Exc) (callsSoFar : List ExtCall) (writesSoFar : List (Nat × String))
    (commitsSoFar : List Db) : RunResult :=
  let m := e.message
  let dbF := updateStatus dbX env.now rid "failed" (some m) {}
  let dbF2 := { dbF with sync_logs := dbF.sync_logs ++
      [⟨rid, "star", "failed", some m, some env.elapsed, none, env.now⟩] }
  let dbF3 := markProcessed dbF2 env.now deliveryId (some rid) (some m)
  { db := dbF3, result := .error e, calls := callsSoFar,
    status_writes := writesSoFar ++ [(rid, "failed")],
    commits := commitsSoFar ++ [dbF2, dbF3] }

/-- Steps 3–10 of `process_star_event` over the database `db1` committed
after the webhook-event insert (the idempotency lookup came back empty)
and the database `db1r` actually visible to the `create` flush (they
differ exactly when a competing writer committed in between). -/
def createPendingAndRun (env : SyncEnv) (event : WatchEvent) (deliveryId : String)
    (postR getR : HttpResult) (gitErr : Option String)
    (db1 db1r : Db) : RunResult :=
      if db1r.repos.any fun r => r.github_url == event.repository.clone_url then
        { db := db1r, result := .error (.integrityError "UNIQUE constraint failed: repositories.github_url"),
          calls := [], status_writes := [], commits := [db1] }
      else
        let rid := db1r.next_repo_id
        let rrec : RepoRecord :=
          { id := rid
            github_url := event.repository.clone_url
            github_repo_name := event.repository.name
            github_owner := event.repository.owner.login
            github_full_name := event.repository.full_name
            github_repo_id := some event.repository.id
            github_default_branch := some event.repository.default_branch
            github_is_private := event.repository.is_private
            github_size_kb := some event.repository.size
            onedev_url := none
            onedev_repo_name := none
            onedev_project_id := none
            sync_status := "pending"
            error_message := none
            retry_count := 0
            max_retries := 3
            created_at := env.now
            updated_at := env.now
            last_synced_at := none
            next_retry_at := none }
        let db2 := { db1r with repos := db1r.repos ++ [rrec], next_repo_id := rid + 1 }
        let db3 := updateStatus db2 env.now rid "in_progress" none {}
        let oname := sGenerateOnedevName env.name_pre event.repository.owner.login
          event.repository.name
        let odesc := "Synced from GitHub: " ++ event.repository.full_name
        match createRepository env.onedev_strategy env.onedev_base oname postR getR with
        | .error e =>
          failPath env deliveryId rid db3 e [.provision oname odesc]
            [(rid, "pending"), (rid, "in_progress")] [db1, db2, db3]
        | .ok info =>
          let db4 := updateStatus db3 env.now rid "cloning" none
            { onedev_url := some (some info.url)
              onedev_repo_name := some info.name
              onedev_project_id := some info.id }
          let tcall := ExtCall.transfer event.repository.clone_url info.git_url
            (some event.repository.default_branch)
          match gitErr with
          | some m =>
            failPath env deliveryId rid db4 (.gitOperationError m)
              [.provision oname odesc, tcall]
              [(rid, "pending"), (rid, "in_progress"), (rid, "cloning")]
              [db1, db2, db3, db4]
          | none =>
            let db5 := updateStatus db4 env.now rid "completed" none
              { last_synced_at := some (some env.now) }
            let db6 := { db5 with sync_logs := db5.sync_logs ++
                [⟨rid, "star", "success", none, some env.elapsed, none, env.now⟩] }
            let db7 := markProcessed db6 env.now deliveryId (some rid) none
            { db := db7
              result := .ok (.success rid info.url env.elapsed)
              calls := [.provision oname odesc, tcall]
              status_writes := [(rid, "pending"), (rid, "in_progress"),
                (rid, "cloning"), (rid, "completed")]
              commits := [db1, db2, db3, db4, db5, db6, db7] }

/-- The `| none =>` continuation of the idempotency lookup: apply the
optional competing writer's committed insert (§5 race window), then
create and run the sync. -/
def startNewSync (env : SyncEnv) (event : WatchEvent) (deliveryId : String)
    (postR getR : HttpResult) (gitErr : Option String)
    (race : Option RepoRecord) (db1 : Db) : RunResult :=
  let db1r := match race with
    | some r => { db1 with repos := db1.repos ++ [r],
                           next_repo_id := max db1.next_repo_id (r.id + 1) }
    | none => db1
  createPendingAndRun env event deliveryId postR getR gitErr db1 db1r

/-- `SyncOrchestrator.process_star_event(event, delivery_id)`.

Steps, as in the source: store the raw webhook event and commit; look up
an existing row by `clone_url` and short-circuit with `already_synced`;
otherwise continue in `startNewSync`: create the row in `pending` (the
UNIQUE constraint on `github_url` raises `IntegrityError` at flush if a
competing writer got there first — that exception is *not* among the
caught retryable kinds, and with `repo_id` still unset the generic
handler simply re-raises); transition to `in_progress`; provision the
OneDev repository; transition to `cloning` with the three target-linkage
fields; run the git transfer; transition to `completed`; append a success
log entry; mark the webhook processed. `OneDevAPIError` /
`GitOperationError` divert to `failPath`. -/
def processStarEvent (env : SyncEnv) (event : WatchEvent) (deliveryId : String)
    (postR getR : HttpResult) (gitErr : Option String)
    (race : Option RepoRecord) (db0 : Db) : RunResult :=
  if db0.webhook_events.any fun w => w.event_id == deliveryId then
    { db := db0, result := .error (.integrityError "UNIQUE constraint failed: webhook_events.event_id"),
      calls := [], status_writes := [], commits := [] }
  else
    let wrec : WebhookEventRecord :=
      ⟨deliveryId, "watch", some deliveryId, event, "verified", false, none, env.now, none, none⟩
    let db1 := { db0 with webhook_events := db0.webhook_events ++ [wrec] }
    match getByGithubUrl db1 event.repository.clone_url with
    | some existing =>
      { db := db1, result := .ok (.alreadySynced existing.id existing.onedev_url),
        calls := [], status_writes := [], commits := [db1] }
    | none =>
      startNewSync env event deliveryId postR getR gitErr race db1

/-! ### Derived predicates and concrete sample inputs used in the theorems -/

/-- The §3 target-linkage invariant on one row: `onedev_url`,
`onedev_repo_name`, `onedev_project_id` all null or all non-null. -/
def linkageOk (r : RepoRecord) : Prop :=
  (r.onedev_url = none ∧ r.onedev_repo_name = none ∧ r.onedev_project_id = none)
  ∨ (r.onedev_url ≠ none ∧ r.onedev_repo_name ≠ none ∧ r.onedev_project_id ≠ none)

instance (r : RepoRecord) : Decidable (linkageOk r) := by
  unfold linkageOk; infer_instance

/-- A OneDev HTTP outcome is well-formed when any JSON body it carries has
non-null `id` and `name` (the target reports the project it holds). -/
def respWF : HttpResult → Bool
  | .resp _ data _ => data.id.isSome && data.name.isSome
  | _ => true

/-- The exact status-write sequences a single `process_star_event` run can
leave on the row it creates. -/
def allowedStatusSeqs : List (List String) :=
  [[],
   ["pending", "in_progress", "failed"],
   ["pending", "in_progress", "cloning", "failed"],
   ["pending", "in_progress", "cloning", "completed"]]

/-- The spec's three legal status chains. -/
def statusChains : List (List String) :=
  [["pending", "in_progress", "cloning", "completed"],
   ["pending", "in_progress", "failed"],
   ["pending", "in_progress", "cloning", "failed"]]

/-- Sample environment: clock 100, elapsed 7s, default config values
(`use_existing`, prefix `github-`). -/
def sampleEnv : SyncEnv := ⟨100, 7, "use_existing", "https://onedev.example", "github-"⟩

/-- The spec's §8 scenario star event: `octocat/Hello-World`, public,
default branch `main`. -/
def sampleEvent : WatchEvent :=
  ⟨"started",
   ⟨1296269, "Hello-World", "octocat/Hello-World", ⟨"octocat", "User"⟩,
    "https://github.com/octocat/Hello-World",
    "https://github.com/octocat/Hello-World.git", "main", false, 108⟩,
   ⟨"octocat"⟩⟩

/-- An empty ledger. -/
def emptyDb : Db := ⟨[], [], [], 1⟩

/-- A successful OneDev POST /api/projects response (201). -/
def okPost : HttpResult := .resp 201 ⟨some 42, some "github-octocat-hello-world"⟩ "{}"

/-- The row a competing writer committed for the same source URL between
this task's idempotency lookup and its `create` flush (§5 race). -/
def raceRecord : RepoRecord :=
  ⟨50, "https://github.com/octocat/Hello-World.git", "Hello-World", "other-task", "octocat/Hello-World",
   none, none, false, none, some "https://onedev.example/github-octocat-hello-world",
   some "github-octocat-hello-world", some 42, "completed", none, 0, 3, 90, 90, some 95, none⟩

/-- A ledger already holding a completed sync of the sample repository. -/
def syncedDb : Db := ⟨[raceRecord], [], [], 51⟩

/-- The `repositories` row as it stands after a fully successful run that
created it with id `rid`: source snapshot from the event, all three target
linkage fields set, status `completed`, `last_synced_at` set. -/
def completedRepoRecord (env : SyncEnv) (event : WatchEvent) (rid : Nat)
    (data : OneDevJson) : RepoRecord :=
  { id := rid
    github_url := event.repository.clone_url
    github_repo_name := event.repository.name
    github_owner := event.repository.owner.login
    github_full_name := event.repository.full_name
    github_repo_id := some event.repository.id
    github_default_branch := some event.repository.default_branch
    github_is_private := event.repository.is_private
    github_size_kb := some event.repository.size
    onedev_url := some (env.onedev_base ++ "/" ++ sGenerateOnedevName env.name_pre
      event.repository.owner.login event.repository.name)
    onedev_repo_name := data.name
    onedev_project_id := data.id
    sync_status := "completed"
    error_message := none
    retry_count := 0
    max_retries := 3
    created_at := env.now
    updated_at := env.now
    last_synced_at := some env.now
    next_retry_at := none }

/-! ### Helper lemmas -/

lemma startsWithL_iff : ∀ p s : List Char, startsWithL p s = true ↔ ∃ t, s = p ++ t
  | [], s => by simp [startsWithL]
  | p :: ps, [] => by simp [startsWithL]
  | p :: ps, c :: cs => by
    simp only [startsWithL, Bool.and_eq_true, beq_iff_eq, startsWithL_iff ps cs,
      List.cons_append, List.cons.injEq]
    constructor
    · rintro ⟨rfl, t, rfl⟩; exact ⟨t, rfl, rfl⟩
    · rintro ⟨t, rfl, rfl⟩; exact ⟨rfl, t, rfl⟩

lemma afterFirstEq_sha (t : List Char) : afterFirstEq ("sha256=".data ++ t) = t := rfl

lemma verify_some_iff (hmacHex : List Char → List Nat → List Char)
    (secret : List Char) (payload : List Nat) (h : List Char) :
    verifyGithubSignature hmacHex secret payload (some h) = true ↔
      h = "sha256=".data ++ hmacHex secret payload := by
  unfold verifyGithubSignature
  dsimp only
  by_cases hs : startsWithL "sha256=".data h = true
  · obtain ⟨t, rfl⟩ := (startsWithL_iff _ _).1 hs
    rw [if_pos hs, afterFirstEq_sha]
    simp [List.append_right_inj]
  · rw [if_neg hs]
    simp only [Bool.false_eq_true, false_iff]
    intro he
    exact hs ((startsWithL_iff _ _).2 ⟨_, he⟩)

lemma map_update_fresh (l : List RepoRecord) (rid : Nat) (f : RepoRecord → RepoRecord)
    (h : ∀ x ∈ l, x.id ≠ rid) :
    (l.map fun x => if x.id == rid then f x else x) = l := by
  conv_rhs => rw [← List.map_id l]
  apply List.map_congr_left
  intro x hx
  simp [h x hx]

lemma map_mark_fresh (l : List WebhookEventRecord) (d : String)
    (f : WebhookEventRecord → WebhookEventRecord)
    (h : ∀ x ∈ l, x.event_id ≠ d) :
    (l.map fun x => if x.event_id == d then f x else x) = l := by
  conv_rhs => rw [← List.map_id l]
  apply List.map_congr_left
  intro x hx
  simp [h x hx]

lemma any_eq_false_forall {α : Type} (l : List α) (p : α → Bool) (h : l.any p = false) :
    ∀ x ∈ l, ¬ p x = true := by
  intro x hx hp
  rw [List.any_eq_false] at h
  exact h x hx hp

lemma find?_append_of_none {α : Type} (p : α → Bool) (l₁ l₂ : List α)
    (h : l₁.find? p = none) : (l₁ ++ l₂).find? p = l₂.find? p := by
  induction l₁ with
  | nil => simp
  | cons a t ih =>
    rw [List.find?_eq_none] at h
    have ha : ¬ p a = true := h a (by simp)
    rw [List.cons_append, List.find?_cons_of_neg _ ha]
    exact ih (List.find?_eq_none.mpr fun x hx => h x (by simp [hx]))

lemma linkage_append (l : List RepoRecord) (r : RepoRecord)
    (hl : ∀ x ∈ l, linkageOk x) (hr : linkageOk r) : ∀ x ∈ l ++ [r], linkageOk x := by
  intro x hx
  rcases List.mem_append.1 hx with h | h
  · exact hl x h
  · rw [List.mem_singleton] at h; subst h; exact hr

lemma getRepository_wf (base name : String) (getR : HttpResult) (info : OneDevRepoInfo)
    (h : respWF getR = true) (hg : getRepository base name getR = .ok info) :
    info.id.isSome ∧ info.name.isSome := by
  cases getR with
  | resp status data text =>
    simp only [respWF, Bool.and_eq_true] at h
    simp only [getRepository] at hg
    by_cases h200 : (status == 200) = true
    · rw [if_pos h200] at hg
      cases hg
      exact h
    · rw [if_neg h200] at hg
      cases hg
  | httpError m => cases hg
  | unexpectedError m => cases hg

lemma createRepository_wf (strategy base name : String) (postR getR : HttpResult)
    (info : OneDevRepoInfo)
    (h1 : respWF postR = true) (h2 : respWF getR = true)
    (hc : createRepository strategy base name postR getR = .ok info) :
    info.id.isSome ∧ info.name.isSome := by
  cases postR with
  | resp status data text =>
    simp only [respWF, Bool.and_eq_true] at h1
    simp only [createRepository] at hc
    by_cases h201 : (status == 201) = true
    · rw [if_pos h201] at hc
      cases hc
      exact h1
    · rw [if_neg h201] at hc
      by_cases h409 : (status == 409) = true
      · rw [if_pos h409] at hc
        by_cases hs : (strategy == "use_existing") = true
        · rw [if_pos hs] at hc
          cases hg : getRepository base name getR with
          | ok info2 =>
            rw [hg] at hc
            cases hc
            exact getRepository_wf base name getR _ h2 hg
          | error e =>
            rw [hg] at hc
            cases hc
        · rw [if_neg hs] at hc
          cases hc
      · rw [if_neg h409] at hc
        cases hc
  | httpError m => cases hc
  | unexpectedError m => cases hc

lemma linkage_updateStatus (db : Db) (now rid : Nat) (status : String)
    (em : Option String) (kw : UpdateKw)
    (hdb : ∀ r ∈ db.repos, linkageOk r)
    (hkw : ∀ r, linkageOk r → linkageOk (applyUpdate now status em kw r)) :
    ∀ r ∈ (updateStatus db now rid status em kw).repos, linkageOk r := by
  intro r hr
  simp only [updateStatus, List.mem_map] at hr
  obtain ⟨x, hx, rfl⟩ := hr
  by_cases h : (x.id == rid) = true
  · rw [if_pos h]; exact hkw x (hdb x hx)
  · rw [if_neg h]; exact hdb x hx

lemma applyUpdate_noKw_linkage (now : Nat) (status : String) (em : Option String)
    (r : RepoRecord) (h : linkageOk r) :
    linkageOk (applyUpdate now status em {} r) := by
  simpa [applyUpdate, linkageOk] using h

lemma applyUpdate_lastSynced_linkage (now : Nat) (status : String) (em : Option String)
    (v : Option Nat) (r : RepoRecord) (h : linkageOk r) :
    linkageOk (applyUpdate now status em { last_synced_at := some v } r) := by
  simpa [applyUpdate, linkageOk] using h

lemma applyUpdate_cloning_linkage (now : Nat) (status : String) (em : Option String)
    (u : String) (nm : Option String) (pid : Option Int)
    (hn : nm.isSome) (hp : pid.isSome) (r : RepoRecord) :
    linkageOk (applyUpdate now status em
      { onedev_url := some (some u), onedev_repo_name := some nm,
        onedev_project_id := some pid } r) := by
  right
  simp only [applyUpdate]
  refine ⟨by simp, ?_, ?_⟩
  · simpa [Option.isSome_iff_ne_none] using hn
  · simpa [Option.isSome_iff_ne_none] using hp

lemma alreadySynced_frame (env : SyncEnv) (event : WatchEvent) (deliveryId : String)
    (postR getR : HttpResult) (gitErr : Option String) (race : Option RepoRecord)
    (db0 : Db) (r : RepoRecord)
    (hdel : (db0.webhook_events.any fun w => w.event_id == deliveryId) = false)
    (hex : getByGithubUrl db0 event.repository.clone_url = some r) :
    (processStarEvent env event deliveryId postR getR gitErr race db0).result
        = .ok (.alreadySynced r.id r.onedev_url)
    ∧ (processStarEvent env event deliveryId postR getR gitErr race db0).db.repos = db0.repos
    ∧ (processStarEvent env event deliveryId postR getR gitErr race db0).db.sync_logs = db0.sync_logs
    ∧ (processStarEvent env event deliveryId postR getR gitErr race db0).calls = []
    ∧ (processStarEvent env event deliveryId postR getR gitErr race db0).status_writes = []
    ∧ (processStarEvent env event deliveryId postR getR gitErr race db0).db.webhook_events
        = db0.webhook_events ++
          [⟨deliveryId, "watch", some deliveryId, event, "verified", false, none, env.now,
            none, none⟩] := by
  rw [getByGithubUrl] at hex
  simp [processStarEvent, hdel, getByGithubUrl, hex]

lemma processStarEvent_success_shape (env : SyncEnv) (event : WatchEvent) (d : String)
    (data : OneDevJson) (text : String) (getR : HttpResult) (db0 : Db)
    (hdel : (db0.webhook_events.any fun w => w.event_id == d) = false)
    (hrep : (db0.repos.any fun r => r.github_url == event.repository.clone_url) = false)
    (hwf : ∀ r ∈ db0.repos, r.id ≠ db0.next_repo_id) :
    (processStarEvent env event d (.resp 201 data text) getR none none db0).result
      = .ok (.success db0.next_repo_id
          (env.onedev_base ++ "/" ++ sGenerateOnedevName env.name_pre
            event.repository.owner.login event.repository.name) env.elapsed)
    ∧ (processStarEvent env event d (.resp 201 data text) getR none none db0).db.repos
        = db0.repos ++ [completedRepoRecord env event db0.next_repo_id data]
    ∧ (processStarEvent env event d (.resp 201 data text) getR none none db0).db.webhook_events
        = db0.webhook_events ++
          [⟨d, "watch", some d, event, "verified", true, none, env.now, some env.now,
            some db0.next_repo_id⟩] := by
  have hwev : ∀ x ∈ db0.webhook_events, x.event_id ≠ d := by
    intro x hx
    have := any_eq_false_forall _ _ hdel x hx
    simpa using this
  have hrep' : ∀ x ∈ db0.repos, ¬ x.github_url = event.repository.clone_url := by
    intro x hx
    have := any_eq_false_forall _ _ hrep x hx
    simpa using this
  simp only [processStarEvent, hdel, Bool.false_eq_true, if_false, getByGithubUrl]
  rw [show ({ db0 with webhook_events := db0.webhook_events ++
      [⟨d, "watch", some d, event, "verified", false, none, env.now, none, none⟩] } : Db).repos
    = db0.repos from rfl]
  rw [List.find?_eq_none.mpr (by intro x hx; simpa using hrep' x hx)]
  simp only [startNewSync, createPendingAndRun, hrep, Bool.false_eq_true, if_false,
    updateStatus, markProcessed, createRepository, beq_self_eq_true, if_true,
    List.map_append, map_update_fresh _ _ _ hwf, map_mark_fresh _ _ _ hwev,
    List.map_cons, List.map_nil, applyUpdate]
  refine ⟨by simp, by simp [completedRepoRecord], by simp⟩

/-! ### Claim theorems -/

/-- C9: for every owner and repository name, the derived target name is the
configured prefix followed by owner and name joined with a hyphen, every
dot and underscore replaced by a hyphen and the result lower-cased (a
single character-wise sanitization pass); for `octocat` / `Hello-World`
with prefix `github-` it is `github-octocat-hello-world`; and the
derivation is deterministic. -/
theorem generate_onedev_name_spec :
    (∀ pre owner repo : List Char,
      generateOnedevNameL pre owner repo =
        pre ++ (owner ++ ['-'] ++ repo).map sanitizeChar)
    ∧ sGenerateOnedevName "github-" "octocat" "Hello-World" = "github-octocat-hello-world"
    ∧ (∀ p p' o o' r r' : String, p = p' → o = o' → r = r' →
        sGenerateOnedevName p o r = sGenerateOnedevName p' o' r') := by
  refine ⟨?_, by decide, ?_⟩
  · intro pre owner repo
    unfold generateOnedevNameL pyLower pyReplace
    rw [List.map_map, List.map_map]
    congr 1
    apply List.map_congr_left
    intro c _
    by_cases h1 : c = '.'
    · subst h1; decide
    · by_cases h2 : c = '_'
      · subst h2; decide
      · simp [sanitizeChar, h1, h2, Function.comp]
  · intro p p' o o' r r' hp ho hr
    rw [hp, ho, hr]

theorem generate_onedev_name_spec_witness :
    sGenerateOnedevName "github-" "octocat" "Hello-World" =
      sGenerateOnedevName "github-" "octocat" "Hello-World" :=
  generate_onedev_name_spec.2.2 _ _ _ _ _ _ rfl rfl rfl

/-- C4: for every payload and secret (with HMAC-SHA256 abstracted as the
external primitive `hmacHex`), verification succeeds iff the header is
present and equals `sha256=` followed by the hex digest — so it returns
`false` (it is a total function, never an exception) on an absent,
malformed, or mismatched header; any change to the signature header flips
a true result to false; and any change to the payload that changes its
digest (the cryptographic premise of the claim) flips a true result to
false. -/
theorem verify_github_signature_spec
    (hmacHex : List Char → List Nat → List Char) (secret : List Char)
    (payload : List Nat) :
    (∀ h : List Char,
      verifyGithubSignature hmacHex secret payload (some h) = true ↔
        h = "sha256=".data ++ hmacHex secret payload)
    ∧ verifyGithubSignature hmacHex secret payload none = false
    ∧ (∀ h h' : List Char,
        verifyGithubSignature hmacHex secret payload (some h) = true → h' ≠ h →
        verifyGithubSignature hmacHex secret payload (some h') = false)
    ∧ (∀ (payload' : List Nat) (h : List Char),
        verifyGithubSignature hmacHex secret payload (some h) = true →
        hmacHex secret payload' ≠ hmacHex secret payload →
        verifyGithubSignature hmacHex secret payload' (some h) = false) := by
  refine ⟨verify_some_iff hmacHex secret payload, rfl, ?_, ?_⟩
  · intro h h' hv hne
    rw [(verify_some_iff hmacHex secret payload h).1 hv] at hne
    cases hvf : verifyGithubSignature hmacHex secret payload (some h') with
    | false => rfl
    | true => exact absurd ((verify_some_iff hmacHex secret payload h').1 hvf) hne
  · intro payload' h hv hne
    rw [(verify_some_iff hmacHex secret payload h).1 hv]
    cases hvf : verifyGithubSignature hmacHex secret payload'
        (some ("sha256=".data ++ hmacHex secret payload)) with
    | false => rfl
    | true =>
      have := (verify_some_iff hmacHex secret payload' _).1 hvf
      rw [List.append_right_inj] at this
      exact absurd this.symm hne

theorem verify_github_signature_spec_witness :
    verifyGithubSignature (fun _ p => if p = [1] then "aa".data else "bb".data)
      "secret".data [1] (some ("sha256=aa".data)) = true
    ∧ verifyGithubSignature (fun _ p => if p = [1] then "aa".data else "bb".data)
      "secret".data [2] (some ("sha256=aa".data)) = false :=
  ⟨(verify_github_signature_spec _ "secret".data [1]).1 _ |>.mpr (by decide),
   (verify_github_signature_spec _ "secret".data [1]).2.2.2 [2] _
     ((verify_github_signature_spec _ "secret".data [1]).1 _ |>.mpr (by decide))
     (by decide)⟩

/-- C5 (amended): the retry policy wrapping `process_star_event` re-invokes
exactly on `RetryableError`, `OneDevAPIError` and `GitOperationError` —
`GitHubAPIError` is not in the default retryable set — up to the
3-attempt cap with the exponential-backoff delays, and every error of any
other kind propagates after a single invocation with no backoff delay;
work that succeeds is never re-invoked. -/
theorem star_event_retry_policy_spec (e : Exc) :
    (isRetryableDefault e = true →
      (starEventRetryPolicy (fun _ => (.error e : Except Exc Outcome))).attempts = 3
      ∧ (starEventRetryPolicy (fun _ => (.error e : Except Exc Outcome))).delays = [4, 4]
      ∧ (starEventRetryPolicy (fun _ => (.error e : Except Exc Outcome))).result = .error e)
    ∧ (isRetryableDefault e = false →
      (starEventRetryPolicy (fun _ => (.error e : Except Exc Outcome))).attempts = 1
      ∧ (starEventRetryPolicy (fun _ => (.error e : Except Exc Outcome))).delays = []
      ∧ (starEventRetryPolicy (fun _ => (.error e : Except Exc Outcome))).result = .error e)
    ∧ (isRetryableDefault e = true ↔
        ((∃ m, e = .retryableError m) ∨ (∃ m, e = .oneDevAPIError m)
          ∨ (∃ m, e = .gitOperationError m)))
    ∧ (∀ (work : Nat → Except Exc Outcome) (a : Outcome), work 1 = .ok a →
        starEventRetryPolicy work = ⟨1, [], .ok a⟩) := by
  refine ⟨?_, ?_, ?_, ?_⟩
  · intro he
    simp [starEventRetryPolicy, runRetry, he, waitExponential]
  · intro he
    simp [starEventRetryPolicy, runRetry, he]
  · cases e <;> simp [isRetryableDefault]
  · intro work a hw
    simp [starEventRetryPolicy, runRetry, hw]

theorem star_event_retry_policy_spec_witness :
    (starEventRetryPolicy (fun _ => (.error (.oneDevAPIError "timeout") : Except Exc Outcome))).attempts = 3 :=
  ((star_event_retry_policy_spec (.oneDevAPIError "timeout")).1 (by decide)).1

/-- C5 (counterexample): a work unit that always raises `GitHubAPIError`
is invoked exactly once by the policy wrapping `process_star_event` — it
is never re-invoked, contradicting the claim that the source API error is
one of the re-invoked kinds. -/
theorem star_event_retry_github_api_error_not_retried :
    (starEventRetryPolicy
        (fun _ => (.error (.gitHubAPIError "GitHub API unavailable") : Except Exc Outcome))).attempts = 1
    ∧ ¬ 2 ≤ (starEventRetryPolicy
        (fun _ => (.error (.gitHubAPIError "GitHub API unavailable") : Except Exc Outcome))).attempts := by
  decide

/-- C2 (code behavior at the failing input): when a competing writer
commits a row for the same source URL between the idempotency lookup and
the `create` flush, the resulting duplicate-key `IntegrityError` is not
caught by the orchestrator — `process_star_event` re-raises it instead of
returning the `already_synced` outcome for the existing record, and the
error is not a retryable kind either. -/
theorem process_star_event_duplicate_key_propagates :
    (processStarEvent sampleEnv sampleEvent "delivery-1" okPost okPost none
        (some raceRecord) emptyDb).result
      = .error (.integrityError "UNIQUE constraint failed: repositories.github_url")
    ∧ (processStarEvent sampleEnv sampleEvent "delivery-1" okPost okPost none
        (some raceRecord) emptyDb).result
      ≠ .ok (.alreadySynced raceRecord.id raceRecord.onedev_url)
    ∧ isRetryableDefault (.integrityError "UNIQUE constraint failed: repositories.github_url") = false
    ∧ (processStarEvent sampleEnv sampleEvent "delivery-1" okPost okPost none
        (some raceRecord) emptyDb).status_writes = []
    ∧ (processStarEvent sampleEnv sampleEvent "delivery-1" okPost okPost none
        (some raceRecord) emptyDb).calls = [] := by
  refine ⟨by decide, by decide, by decide, by decide, by decide⟩

/-- C6: for every transfer outcome (success, clone failure, push failure
or other unexpected git exception, each possibly timeout-induced), given
that `mkdtemp` returned a fresh directory and `rmtree` succeeds when
invoked, the temporary working directory does not exist after
`sync_repository` returns (the filesystem is exactly as before); and the
returned outcome is independent of whether the cleanup's `rmtree`
succeeds — a cleanup failure never replaces or masks the transfer's own
error. -/
theorem sync_repository_cleanup (fs : Fs) (d : String) (hd : d ∉ fs) :
    ∀ (cloneRes pushRes : GitOutcome) (rm1 rm2 : Bool),
      ((syncRepository fs d cloneRes pushRes true true).1 = fs
        ∧ d ∉ (syncRepository fs d cloneRes pushRes true true).1)
      ∧ (syncRepository fs d cloneRes pushRes rm1 rm2).2 =
          (syncRepository fs d cloneRes pushRes true true).2 := by
  intro cloneRes pushRes rm1 rm2
  cases cloneRes <;> cases pushRes <;> cases rm1 <;> cases rm2 <;>
    simp_all [syncRepository, cloneRepository, pushRepository, cleanupDirectory,
      List.contains_cons]

theorem sync_repository_cleanup_witness :
    ("/tmp/git-sync/x1" ∉ (["/tmp/git-sync/other"] : Fs))
    ∧ (syncRepository ["/tmp/git-sync/other"] "/tmp/git-sync/x1"
        (.gitCommandError "403") .ok true true).1 = ["/tmp/git-sync/other"] :=
  ⟨by decide,
   ((sync_repository_cleanup ["/tmp/git-sync/other"] "/tmp/git-sync/x1" (by decide)
      (.gitCommandError "403") .ok true true).1).1⟩

/-- C7 (amended): on a 409 "already exists" response, with conflict
strategy `use_existing` and a successful GET of the existing project,
`create_repository` returns the existing repository's
`{id, name, url, git_url}` without raising; with strategy `fail` it raises
the same retryable target API error type `OneDevAPIError` (message
`Repository <name> already exists`, re-wrapped by the client's generic
handler) — there is no distinct non-retryable `TargetConflict` error; and
any other non-success status or transport failure raises the retryable
target API error. -/
theorem create_repository_conflict_policy (base name text extra : String)
    (data getData : OneDevJson) (g : HttpResult) :
    (createRepository "use_existing" base name (.resp 409 data text) (.resp 200 getData extra) =
       .ok ⟨getData.id, getData.name, base ++ "/" ++ name, base ++ "/" ++ name ++ ".git"⟩)
    ∧ (createRepository "fail" base name (.resp 409 data text) g =
       .error (.oneDevAPIError ("Unexpected error: " ++ ("Repository " ++ name ++ " already exists"))))
    ∧ isRetryableDefault
        (.oneDevAPIError ("Unexpected error: " ++ ("Repository " ++ name ++ " already exists"))) = true
    ∧ (∀ status : Nat, (status == 201) = false → (status == 409) = false →
       ∀ strat : String,
         createRepository strat base name (.resp status data text) g =
           .error (.oneDevAPIError ("Unexpected error: " ++
             ("Failed to create repository: " ++ toString status ++ " - " ++ text)))
         ∧ isRetryableDefault (.oneDevAPIError ("Unexpected error: " ++
             ("Failed to create repository: " ++ toString status ++ " - " ++ text))) = true)
    ∧ (∀ (strat m : String), createRepository strat base name (.httpError m) g =
         .error (.oneDevAPIError ("HTTP error: " ++ m))
       ∧ isRetryableDefault (.oneDevAPIError ("HTTP error: " ++ m)) = true) := by
  refine ⟨?_, ?_, rfl, ?_, ?_⟩
  · simp [createRepository, getRepository]
  · simp [createRepository]
  · intro status h1 h2 strat
    simp [createRepository, h1, h2, isRetryableDefault]
  · intro strat m
    simp [createRepository, isRetryableDefault]

theorem create_repository_conflict_policy_witness :
    ((500 : Nat) == 201) = false ∧ ((500 : Nat) == 409) = false
    ∧ createRepository "use_existing" "https://onedev.example" "github-x"
        (.resp 500 ⟨none, none⟩ "oops") okPost =
      .error (.oneDevAPIError "Unexpected error: Failed to create repository: 500 - oops") :=
  ⟨by decide, by decide,
   ((create_repository_conflict_policy "https://onedev.example" "github-x" "oops" ""
      ⟨none, none⟩ ⟨none, none⟩ okPost).2.2.2.1 500 (by decide) (by decide) "use_existing").1⟩

/-- C7 (counterexample): with conflict strategy `fail`, the 409 path of
`create_repository` raises `OneDevAPIError` — the very error kind the
retry policy classifies as retryable — not a distinct non-retryable
`TargetConflict` exception (no such type exists in the code). -/
theorem create_repository_conflict_fail_retryable :
    createRepository "fail" "https://onedev.example" "github-octocat-hello-world"
        (.resp 409 ⟨none, none⟩ "conflict") okPost =
      .error (.oneDevAPIError "Unexpected error: Repository github-octocat-hello-world already exists")
    ∧ isRetryableDefault
        (.oneDevAPIError "Unexpected error: Repository github-octocat-hello-world already exists") = true := by
  decide

/-- C10: on the `already_synced` short-circuit path (an existing row is
found for the event's source URL), the only persisted write is the new
webhook event record created at entry: the repositories table and the sync
logs are untouched, no external call and no status write happens, and the
new webhook event record is left with `processed = false`,
`processed_at = none`, `repository_id = none` — it is never marked
processed. -/
theorem already_synced_frame_effect (env : SyncEnv) (event : WatchEvent)
    (deliveryId : String) (postR getR : HttpResult) (gitErr : Option String)
    (race : Option RepoRecord) (db0 : Db) (r : RepoRecord)
    (hdel : (db0.webhook_events.any fun w => w.event_id == deliveryId) = false)
    (hex : getByGithubUrl db0 event.repository.clone_url = some r) :
    (processStarEvent env event deliveryId postR getR gitErr race db0).result
        = .ok (.alreadySynced r.id r.onedev_url)
    ∧ (processStarEvent env event deliveryId postR getR gitErr race db0).db.repos = db0.repos
    ∧ (processStarEvent env event deliveryId postR getR gitErr race db0).db.sync_logs = db0.sync_logs
    ∧ (processStarEvent env event deliveryId postR getR gitErr race db0).calls = []
    ∧ (processStarEvent env event deliveryId postR getR gitErr race db0).status_writes = []
    ∧ (processStarEvent env event deliveryId postR getR gitErr race db0).db.webhook_events
        = db0.webhook_events ++
          [⟨deliveryId, "watch", some deliveryId, event, "verified", false, none, env.now,
            none, none⟩] :=
  alreadySynced_frame env event deliveryId postR getR gitErr race db0 r hdel hex

theorem already_synced_frame_effect_witness :
    (syncedDb.webhook_events.any fun w => w.event_id == "delivery-2") = false
    ∧ getByGithubUrl syncedDb sampleEvent.repository.clone_url = some raceRecord
    ∧ (processStarEvent sampleEnv sampleEvent "delivery-2" okPost okPost none none syncedDb).result
        = .ok (.alreadySynced raceRecord.id raceRecord.onedev_url)
    ∧ (processStarEvent sampleEnv sampleEvent "delivery-2" okPost okPost none none syncedDb).db.repos
        = syncedDb.repos :=
  ⟨by decide, by decide,
   (already_synced_frame_effect sampleEnv sampleEvent "delivery-2" okPost okPost none none
      syncedDb raceRecord (by decide) (by decide)).1,
   (already_synced_frame_effect sampleEnv sampleEvent "delivery-2" okPost okPost none none
      syncedDb raceRecord (by decide) (by decide)).2.1⟩

lemma createPendingAndRun_writes (env : SyncEnv) (event : WatchEvent) (deliveryId : String)
    (postR getR : HttpResult) (gitErr : Option String) (db1 db1r : Db) :
    (∀ w ∈ (createPendingAndRun env event deliveryId postR getR gitErr db1 db1r).status_writes,
      w.1 = db1r.next_repo_id)
    ∧ (createPendingAndRun env event deliveryId postR getR gitErr db1 db1r).status_writes.map Prod.snd
        ∈ allowedStatusSeqs := by
  by_cases hg : (db1r.repos.any fun r => r.github_url == event.repository.clone_url) = true
  · constructor
    · simp [createPendingAndRun, hg]
    · simp [createPendingAndRun, hg, allowedStatusSeqs]
  · cases hc : createRepository env.onedev_strategy env.onedev_base
      (sGenerateOnedevName env.name_pre event.repository.owner.login event.repository.name)
      postR getR with
    | error e =>
      constructor
      · simp [createPendingAndRun, hg, hc, failPath]
      · simp [createPendingAndRun, hg, hc, failPath, allowedStatusSeqs]
    | ok info =>
      cases gitErr with
      | some m =>
        constructor
        · simp [createPendingAndRun, hg, hc, failPath]
        · simp [createPendingAndRun, hg, hc, failPath, allowedStatusSeqs]
      | none =>
        constructor
        · simp [createPendingAndRun, hg, hc]
        · simp [createPendingAndRun, hg, hc, allowedStatusSeqs]

lemma startNewSync_writes (env : SyncEnv) (event : WatchEvent) (deliveryId : String)
    (postR getR : HttpResult) (gitErr : Option String) (race : Option RepoRecord) (db1 : Db) :
    ∃ rid, db1.next_repo_id ≤ rid
      ∧ (∀ w ∈ (startNewSync env event deliveryId postR getR gitErr race db1).status_writes,
          w.1 = rid)
      ∧ (startNewSync env event deliveryId postR getR gitErr race db1).status_writes.map Prod.snd
          ∈ allowedStatusSeqs := by
  cases race with
  | none =>
    exact ⟨db1.next_repo_id, le_refl _,
      createPendingAndRun_writes env event deliveryId postR getR gitErr db1 db1⟩
  | some r =>
    exact ⟨max db1.next_repo_id (r.id + 1), le_max_left _ _,
      createPendingAndRun_writes env event deliveryId postR getR gitErr db1
        { db1 with repos := db1.repos ++ [r],
                   next_repo_id := max db1.next_repo_id (r.id + 1) }⟩

lemma allowed_sublist_chains : ∀ l ∈ allowedStatusSeqs, ∃ c ∈ statusChains, l.Sublist c := by
  intro l hl
  simp only [allowedStatusSeqs, List.mem_cons, List.not_mem_nil, or_false] at hl
  rcases hl with rfl | rfl | rfl | rfl
  · exact ⟨["pending", "in_progress", "cloning", "completed"], by simp [statusChains],
      List.nil_sublist _⟩
  · exact ⟨["pending", "in_progress", "failed"], by simp [statusChains], List.Sublist.refl _⟩
  · exact ⟨["pending", "in_progress", "cloning", "failed"], by simp [statusChains],
      List.Sublist.refl _⟩
  · exact ⟨["pending", "in_progress", "cloning", "completed"], by simp [statusChains],
      List.Sublist.refl _⟩

/-- C3: every run of `process_star_event` performs its status writes on a
single repository row — the one it creates, whose id is fresh (at least
the table's autoincrement counter), so no run ever writes a status to a
previously existing row — and the sequence written is one of the allowed
sequences, each of which is a subsequence of one of the spec's three
status chains (pending, in_progress, cloning, completed /
pending, in_progress, failed / pending, in_progress, cloning, failed):
no intermediate state is skipped and no earlier state re-entered. -/
theorem process_star_event_status_ordering (env : SyncEnv) (event : WatchEvent)
    (deliveryId : String) (postR getR : HttpResult) (gitErr : Option String)
    (race : Option RepoRecord) (db0 : Db) :
    ∃ rid, db0.next_repo_id ≤ rid
      ∧ (∀ w ∈ (processStarEvent env event deliveryId postR getR gitErr race db0).status_writes,
          w.1 = rid)
      ∧ (processStarEvent env event deliveryId postR getR gitErr race db0).status_writes.map Prod.snd
          ∈ allowedStatusSeqs
      ∧ (∀ l ∈ allowedStatusSeqs, ∃ c ∈ statusChains, l.Sublist c) := by
  unfold processStarEvent
  split
  · exact ⟨db0.next_repo_id, le_refl _, by simp, by simp [allowedStatusSeqs],
      allowed_sublist_chains⟩
  · dsimp only
    split
    · exact ⟨db0.next_repo_id, le_refl _, by simp, by simp [allowedStatusSeqs],
        allowed_sublist_chains⟩
    · obtain ⟨rid, hle, hall, hmem⟩ := startNewSync_writes env event deliveryId postR getR
        gitErr race
        { db0 with webhook_events := db0.webhook_events ++
            [⟨deliveryId, "watch", some deliveryId, event, "verified", false, none, env.now,
              none, none⟩] }
      exact ⟨rid, hle, hall, hmem, allowed_sublist_chains⟩

theorem process_star_event_status_ordering_witness :
    ∃ rid, emptyDb.next_repo_id ≤ rid
      ∧ (∀ w ∈ (processStarEvent sampleEnv sampleEvent "delivery-1" okPost okPost none none
            emptyDb).status_writes, w.1 = rid)
      ∧ (processStarEvent sampleEnv sampleEvent "delivery-1" okPost okPost none none
            emptyDb).status_writes.map Prod.snd ∈ allowedStatusSeqs
      ∧ (∀ l ∈ allowedStatusSeqs, ∃ c ∈ statusChains, l.Sublist c) :=
  process_star_event_status_ordering sampleEnv sampleEvent "delivery-1" okPost okPost none none
    emptyDb

lemma createPendingAndRun_linkage (env : SyncEnv) (event : WatchEvent) (deliveryId : String)
    (postR getR : HttpResult) (gitErr : Option String) (db1 db1r : Db)
    (hdb1 : ∀ r ∈ db1.repos, linkageOk r)
    (hdbr : ∀ r ∈ db1r.repos, linkageOk r)
    (hp : respWF postR = true) (hg : respWF getR = true) :
    (∀ dbc ∈ (createPendingAndRun env event deliveryId postR getR gitErr db1 db1r).commits,
       ∀ r ∈ dbc.repos, linkageOk r)
    ∧ (∀ r ∈ (createPendingAndRun env event deliveryId postR getR gitErr db1 db1r).db.repos,
       linkageOk r) := by
  by_cases hga : (db1r.repos.any fun r => r.github_url == event.repository.clone_url) = true
  · constructor
    · intro dbc hdbc
      simp only [createPendingAndRun, hga, if_true, List.mem_singleton] at hdbc
      subst hdbc
      exact hdb1
    · simp only [createPendingAndRun, hga, if_true]
      exact hdbr
  · have h2 : ∀ r ∈ db1r.repos ++
        [{ id := db1r.next_repo_id
           github_url := event.repository.clone_url
           github_repo_name := event.repository.name
           github_owner := event.repository.owner.login
           github_full_name := event.repository.full_name
           github_repo_id := some event.repository.id
           github_default_branch := some event.repository.default_branch
           github_is_private := event.repository.is_private
           github_size_kb := some event.repository.size
           onedev_url := none
           onedev_repo_name := none
           onedev_project_id := none
           sync_status := "pending"
           error_message := none
           retry_count := 0
           max_retries := 3
           created_at := env.now
           updated_at := env.now
           last_synced_at := none
           next_retry_at := none : RepoRecord }], linkageOk r := by
      refine linkage_append _ _ hdbr ?_
      left
      exact ⟨rfl, rfl, rfl⟩
    cases hc : createRepository env.onedev_strategy env.onedev_base
        (sGenerateOnedevName env.name_pre event.repository.owner.login event.repository.name)
        postR getR with
    | error e =>
      constructor
      · intro dbc hdbc
        simp only [createPendingAndRun, hga, failPath, hc, List.mem_cons, List.mem_singleton,
          List.not_mem_nil, or_false, Bool.false_eq_true, if_false, List.cons_append,
          List.nil_append] at hdbc
        rcases hdbc with rfl | rfl | rfl | rfl | rfl
        · exact hdb1
        · exact h2
        · exact linkage_updateStatus _ _ _ _ _ _ h2
            (fun r h => applyUpdate_noKw_linkage _ _ _ r h)
        · exact linkage_updateStatus _ _ _ _ _ _
            (linkage_updateStatus _ _ _ _ _ _ h2
              (fun r h => applyUpdate_noKw_linkage _ _ _ r h))
            (fun r h => applyUpdate_noKw_linkage _ _ _ r h)
        · exact linkage_updateStatus _ _ _ _ _ _
            (linkage_updateStatus _ _ _ _ _ _ h2
              (fun r h => applyUpdate_noKw_linkage _ _ _ r h))
            (fun r h => applyUpdate_noKw_linkage _ _ _ r h)
      · simp only [createPendingAndRun, hga, failPath, hc, Bool.false_eq_true, if_false]
        exact linkage_updateStatus _ _ _ _ _ _
          (linkage_updateStatus _ _ _ _ _ _ h2
            (fun r h => applyUpdate_noKw_linkage _ _ _ r h))
          (fun r h => applyUpdate_noKw_linkage _ _ _ r h)
    | ok info =>
      have hinfo := createRepository_wf _ _ _ _ _ _ hp hg hc
      cases gitErr with
      | some m =>
        constructor
        · intro dbc hdbc
          simp only [createPendingAndRun, hga, failPath, hc, List.mem_cons, List.mem_singleton,
            List.not_mem_nil, or_false, Bool.false_eq_true, if_false, List.cons_append,
            List.nil_append] at hdbc
          rcases hdbc with rfl | rfl | rfl | rfl | rfl | rfl
          · exact hdb1
          · exact h2
          · exact linkage_updateStatus _ _ _ _ _ _ h2
              (fun r h => applyUpdate_noKw_linkage _ _ _ r h)
          · exact linkage_updateStatus _ _ _ _ _ _
              (linkage_updateStatus _ _ _ _ _ _ h2
                (fun r h => applyUpdate_noKw_linkage _ _ _ r h))
              (fun r _ => applyUpdate_cloning_linkage _ _ _ _ _ _ hinfo.2 hinfo.1 r)
          · exact linkage_updateStatus _ _ _ _ _ _
              (linkage_updateStatus _ _ _ _ _ _
                (linkage_updateStatus _ _ _ _ _ _ h2
                  (fun r h => applyUpdate_noKw_linkage _ _ _ r h))
                (fun r _ => applyUpdate_cloning_linkage _ _ _ _ _ _ hinfo.2 hinfo.1 r))
              (fun r h => applyUpdate_noKw_linkage _ _ _ r h)
          · exact linkage_updateStatus _ _ _ _ _ _
              (linkage_updateStatus _ _ _ _ _ _
                (linkage_updateStatus _ _ _ _ _ _ h2
                  (fun r h => applyUpdate_noKw_linkage _ _ _ r h))
                (fun r _ => applyUpdate_cloning_linkage _ _ _ _ _ _ hinfo.2 hinfo.1 r))
              (fun r h => applyUpdate_noKw_linkage _ _ _ r h)
        · simp only [createPendingAndRun, hga, failPath, hc, Bool.false_eq_true, if_false]
          exact linkage_updateStatus _ _ _ _ _ _
            (linkage_updateStatus _ _ _ _ _ _
              (linkage_updateStatus _ _ _ _ _ _ h2
                (fun r h => applyUpdate_noKw_linkage _ _ _ r h))
              (fun r _ => applyUpdate_cloning_linkage _ _ _ _ _ _ hinfo.2 hinfo.1 r))
            (fun r h => applyUpdate_noKw_linkage _ _ _ r h)
      | none =>
        have h5 : ∀ r ∈ (updateStatus (updateStatus (updateStatus
            { db1r with repos := db1r.repos ++ [_], next_repo_id := db1r.next_repo_id + 1 }
            env.now db1r.next_repo_id "in_progress" none {})
            env.now db1r.next_repo_id "cloning" none
            { onedev_url := some (some info.url), onedev_repo_name := some info.name,
              onedev_project_id := some info.id })
            env.now db1r.next_repo_id "completed" none
            { last_synced_at := some (some env.now) }).repos, linkageOk r :=
          linkage_updateStatus _ _ _ _ _ _
            (linkage_updateStatus _ _ _ _ _ _
              (linkage_updateStatus _ _ _ _ _ _ h2
                (fun r h => applyUpdate_noKw_linkage _ _ _ r h))
              (fun r _ => applyUpdate_cloning_linkage _ _ _ _ _ _ hinfo.2 hinfo.1 r))
            (fun r h => applyUpdate_lastSynced_linkage _ _ _ _ r h)
        constructor
        · intro dbc hdbc
          simp only [createPendingAndRun, hga, hc, List.mem_cons, List.mem_singleton,
            List.not_mem_nil, or_false, Bool.false_eq_true, if_false] at hdbc
          rcases hdbc with rfl | rfl | rfl | rfl | rfl | rfl | rfl
          · exact hdb1
          · exact h2
          · exact linkage_updateStatus _ _ _ _ _ _ h2
              (fun r h => applyUpdate_noKw_linkage _ _ _ r h)
          · exact linkage_updateStatus _ _ _ _ _ _
              (linkage_updateStatus _ _ _ _ _ _ h2
                (fun r h => applyUpdate_noKw_linkage _ _ _ r h))
              (fun r _ => applyUpdate_cloning_linkage _ _ _ _ _ _ hinfo.2 hinfo.1 r)
          · exact h5
          · exact h5
          · exact h5
        · simp only [createPendingAndRun, hga, hc, Bool.false_eq_true, if_false]
          exact h5

/-- C8: the target-linkage all-or-none invariant is preserved at every
committed database state of every `process_star_event` run (given that
every pre-existing row and any competing writer's row satisfy it, and
that the provisioning responses carry non-null `id` and `name`): the
three fields `onedev_url` / `onedev_repo_name` / `onedev_project_id` are
written only together, in the single transition to `cloning`, so at every
point each row has them all null or all non-null. -/
theorem repository_target_linkage_invariant (env : SyncEnv) (event : WatchEvent)
    (deliveryId : String) (postR getR : HttpResult) (gitErr : Option String)
    (race : Option RepoRecord) (db0 : Db)
    (hdb0 : ∀ r ∈ db0.repos, linkageOk r)
    (hrace : ∀ rr, race = some rr → linkageOk rr)
    (hp : respWF postR = true) (hg : respWF getR = true) :
    (∀ dbc ∈ (processStarEvent env event deliveryId postR getR gitErr race db0).commits,
       ∀ r ∈ dbc.repos, linkageOk r)
    ∧ (∀ r ∈ (processStarEvent env event deliveryId postR getR gitErr race db0).db.repos,
       linkageOk r) := by
  unfold processStarEvent
  split
  · constructor
    · intro dbc hdbc
      simp at hdbc
    · exact hdb0
  · dsimp only
    split
    · constructor
      · intro dbc hdbc
        simp only [List.mem_singleton] at hdbc
        subst hdbc
        exact hdb0
      · exact hdb0
    · show (∀ dbc ∈ (startNewSync _ _ _ _ _ _ _ _).commits, ∀ r ∈ dbc.repos, linkageOk r) ∧ _
      cases race with
      | none =>
        exact createPendingAndRun_linkage env event deliveryId postR getR gitErr _ _
          hdb0 hdb0 hp hg
      | some rr =>
        exact createPendingAndRun_linkage env event deliveryId postR getR gitErr _ _
          hdb0 (linkage_append _ _ hdb0 (hrace rr rfl)) hp hg

theorem repository_target_linkage_invariant_witness :
    (∀ r ∈ emptyDb.repos, linkageOk r)
    ∧ respWF okPost = true
    ∧ (∀ r ∈ (processStarEvent sampleEnv sampleEvent "delivery-1" okPost okPost none none
        emptyDb).db.repos, linkageOk r) :=
  ⟨by simp [emptyDb], by decide,
   (repository_target_linkage_invariant sampleEnv sampleEvent "delivery-1" okPost okPost none
      none emptyDb (by simp [emptyDb]) (by simp) (by decide) (by decide)).2⟩

/-- C1: processing a star event E1 to successful completion and then a
second event E2 carrying the same source clone URL (delivered under a
fresh delivery id, with arbitrary oracles for E2) leaves exactly one
repository row for that URL; E2 returns `already_synced` referencing the
record's target URL as provisioned by E1, makes no provisioning call and
no transfer call (no external calls at all), performs no status write,
and appends no sync log entry. -/
theorem process_star_event_idempotent (env1 env2 : SyncEnv) (e1 e2 : WatchEvent)
    (d1 d2 : String) (data : OneDevJson) (text : String)
    (getR1 postR2 getR2 : HttpResult) (gitErr2 : Option String)
    (race2 : Option RepoRecord) (db0 : Db)
    (hurl : e2.repository.clone_url = e1.repository.clone_url)
    (hd1 : (db0.webhook_events.any fun w => w.event_id == d1) = false)
    (hd2 : (db0.webhook_events.any fun w => w.event_id == d2) = false)
    (hdd : d2 ≠ d1)
    (hrep : (db0.repos.any fun r => r.github_url == e1.repository.clone_url) = false)
    (hwf : ∀ r ∈ db0.repos, r.id ≠ db0.next_repo_id) :
    (processStarEvent env1 e1 d1 (.resp 201 data text) getR1 none none db0).result
      = .ok (.success db0.next_repo_id
          (env1.onedev_base ++ "/" ++ sGenerateOnedevName env1.name_pre
            e1.repository.owner.login e1.repository.name) env1.elapsed)
    ∧ (processStarEvent env2 e2 d2 postR2 getR2 gitErr2 race2
          (processStarEvent env1 e1 d1 (.resp 201 data text) getR1 none none db0).db).result
        = .ok (.alreadySynced db0.next_repo_id
            (some (env1.onedev_base ++ "/" ++ sGenerateOnedevName env1.name_pre
              e1.repository.owner.login e1.repository.name)))
    ∧ (processStarEvent env2 e2 d2 postR2 getR2 gitErr2 race2
          (processStarEvent env1 e1 d1 (.resp 201 data text) getR1 none none db0).db).calls = []
    ∧ (processStarEvent env2 e2 d2 postR2 getR2 gitErr2 race2
          (processStarEvent env1 e1 d1 (.resp 201 data text) getR1 none none db0).db).status_writes = []
    ∧ (processStarEvent env2 e2 d2 postR2 getR2 gitErr2 race2
          (processStarEvent env1 e1 d1 (.resp 201 data text) getR1 none none db0).db).db.sync_logs
        = (processStarEvent env1 e1 d1 (.resp 201 data text) getR1 none none db0).db.sync_logs
    ∧ (processStarEvent env2 e2 d2 postR2 getR2 gitErr2 race2
          (processStarEvent env1 e1 d1 (.resp 201 data text) getR1 none none db0).db).db.repos
        = (processStarEvent env1 e1 d1 (.resp 201 data text) getR1 none none db0).db.repos
    ∧ ((processStarEvent env2 e2 d2 postR2 getR2 gitErr2 race2
          (processStarEvent env1 e1 d1 (.resp 201 data text) getR1 none none db0).db).db.repos.countP
            fun r => r.github_url == e1.repository.clone_url) = 1 := by
  obtain ⟨hres1, hrepos1, hevents1⟩ :=
    processStarEvent_success_shape env1 e1 d1 data text getR1 db0 hd1 hrep hwf
  have hdel2 : ((processStarEvent env1 e1 d1 (.resp 201 data text) getR1 none none
      db0).db.webhook_events.any fun w => w.event_id == d2) = false := by
    rw [hevents1, List.any_append]
    have h1 : (db0.webhook_events.any fun w => w.event_id == d2) = false := hd2
    simp [h1, Ne.symm hdd]
  have hex2 : getByGithubUrl
      (processStarEvent env1 e1 d1 (.resp 201 data text) getR1 none none db0).db
      e2.repository.clone_url = some (completedRepoRecord env1 e1 db0.next_repo_id data) := by
    rw [getByGithubUrl, hrepos1]
    rw [find?_append_of_none _ _ _ (List.find?_eq_none.mpr ?_)]
    · simp [completedRepoRecord, hurl]
    · intro x hx
      have := any_eq_false_forall _ _ hrep x hx
      simpa [hurl] using this
  obtain ⟨hres2, hrepos2, hlogs2, hcalls2, hwrites2, hevents2⟩ :=
    alreadySynced_frame env2 e2 d2 postR2 getR2 gitErr2 race2 _ _ hdel2 hex2
  refine ⟨hres1, ?_, hcalls2, hwrites2, hlogs2, hrepos2, ?_⟩
  · rw [hres2]
    simp [completedRepoRecord]
  · rw [hrepos2, hrepos1, List.countP_append]
    have h0 : db0.repos.countP (fun r => r.github_url == e1.repository.clone_url) = 0 := by
      rw [List.countP_eq_zero]
      intro x hx
      exact any_eq_false_forall _ _ hrep x hx
    simp [h0, completedRepoRecord]

theorem process_star_event_idempotent_witness :
    ("delivery-2" ≠ "delivery-1")
    ∧ (processStarEvent sampleEnv sampleEvent "delivery-2" okPost okPost none none
          (processStarEvent sampleEnv sampleEvent "delivery-1"
            (.resp 201 ⟨some 42, some "github-octocat-hello-world"⟩ "{}") okPost none none
            emptyDb).db).result
        = .ok (.alreadySynced 1 (some "https://onedev.example/github-octocat-hello-world"))
    ∧ (processStarEvent sampleEnv sampleEvent "delivery-2" okPost okPost none none
          (processStarEvent sampleEnv sampleEvent "delivery-1"
            (.resp 201 ⟨some 42, some "github-octocat-hello-world"⟩ "{}") okPost none none
            emptyDb).db).calls = [] :=
  ⟨by decide,
   ((process_star_event_idempotent sampleEnv sampleEnv sampleEvent sampleEvent
      "delivery-1" "delivery-2" ⟨some 42, some "github-octocat-hello-world"⟩ "{}"
      okPost okPost okPost none none emptyDb rfl (by decide) (by decide) (by decide)
      (by decide) (by simp [emptyDb])).2.1).trans (by decide),
   ((process_star_event_idempotent sampleEnv sampleEnv sampleEvent sampleEvent
      "delivery-1" "delivery-2" ⟨some 42, some "github-octocat-hello-world"⟩ "{}"
      okPost okPost okPost none none emptyDb rfl (by decide) (by decide) (by decide)
      (by decide) (by simp [emptyDb])).2.2.1)⟩
